import Mathlib

/-!
Shallow embedding of the proxy-pool manager, fallback-fetch engine and
trigger handling of `AircraftDataBridge`
(src/Assets/ExternalTools/Python/Scripts/MqttTrafficDataManagerPython.py).

External effects (HTTP probes and fetches, JSON decoding of responses,
MQTT publishing, the random shuffle) are modelled as explicit parameters:
each probe or fetch outcome (`HttpResult`) and each shuffle order is an
input to the embedded operation, and the operation's state updates follow
the source line by line.
-/

/-- Python `str.startswith(pre)` on the character sequence. -/
def strStartsWith (s pre : String) : Bool := pre.data.isPrefixOf s.data

/-- Python `str.lower()` on the character sequence. -/
def strLower (s : String) : String := ⟨s.data.map Char.toLower⟩

/-- Python `str.strip()`: drop leading and trailing whitespace. -/
def strStrip (s : String) : String :=
  ⟨((s.data.dropWhile Char.isWhitespace).reverse.dropWhile Char.isWhitespace).reverse⟩

/-- Outcome of a `requests.get` call: either an exception is raised or a
response with a status code is returned. Used both for the 5s proxy probe
in `test_proxy` and for the Tier-1/Tier-2 fetches in
`fetch_and_publish_data`. -/
inductive HttpResult where
  | exn : HttpResult
  | status : Nat → HttpResult
deriving DecidableEq, Repr

/-- The `self.proxy_failures` dict: per-address failure counters, absent
key meaning the address has never failed. -/
abbrev Failures := List (String × Nat)

/-- Dict lookup `self.proxy_failures.get(p)`: `none` when `p not in
self.proxy_failures`. -/
def failLookup : Failures → String → Option Nat
  | [], _ => none
  | q :: d, p => if q.1 = p then some q.2 else failLookup d p

/-- Failure count with absent keys read as 0. -/
def failCount (d : Failures) (p : String) : Nat :=
  (failLookup d p).getD 0

/-- The increment idiom used at lines 114-117 and 312-315 of the source:
`if p not in self.proxy_failures: self.proxy_failures[p] = 1
else: self.proxy_failures[p] += 1`. -/
def failInc (d : Failures) (p : String) : Failures :=
  match failLookup d p with
  | none => d ++ [(p, 1)]
  | some _ => d.map (fun q => if q.1 = p then (q.1, q.2 + 1) else q)

/-- The guard at line 100 of the source:
`proxy in self.proxy_failures and self.proxy_failures[proxy] >= 3`. -/
def blacklisted (d : Failures) (p : String) : Bool :=
  match failLookup d p with
  | none => false
  | some n => decide (3 ≤ n)

/-- The cached `self.last_request_params` dict: presence of the keys
`command`, `center_lat`, `center_lon`, `radius_km` modelled as `Option`
fields (`request_params.get(k)` is field access, `k in request_params`
is `isSome`). Coordinates and radius are rationals standing for the
source's floats. -/
structure ReqParams where
  command : Option String
  center_lat : Option ℚ
  center_lon : Option ℚ
  radius_km : Option ℚ
deriving DecidableEq, Repr

/-- The mutable fields of `AircraftDataBridge` that the proxy pool, the
retry loop and the trigger path read or write. `proxies` is `some p` for
the dict `{"http": p, "https": p}` and `none` for `{}`. -/
structure BridgeState where
  use_proxy : Bool
  proxy_list : List String
  current_proxy : Option String
  proxies : Option String
  proxy_failures : Failures
  last_request_params : Option ReqParams
  is_connected : Bool
deriving DecidableEq, Repr

/-- `AircraftDataBridge.test_proxy` (lines 98-119). Reads and writes only
`self.proxy_failures`; the outcome of the probe through the candidate is
the `probe` parameter. A candidate with 3 recorded failures is rejected
before any probe; an exception increments its counter; a plain non-200
response returns false without touching the counter. -/
def test_proxy (d : Failures) (p : String) (probe : HttpResult) : Bool × Failures :=
  if blacklisted d p then (false, d)
  else
    match probe with
    | .exn => (false, failInc d p)
    | .status c => (c == 200, d)

/-- The `for proxy in test_proxies:` loop of `find_working_proxy`
(lines 130-136), threading the failure dict through successive
`test_proxy` calls and returning the first candidate that passes. -/
def fwp_go (probes : String → HttpResult) (d : Failures) :
    List String → Option String × Failures
  | [] => (none, d)
  | p :: rest =>
    match test_proxy d p (probes p) with
    | (true, d1) => (some p, d1)
    | (false, d1) => fwp_go probes d1 rest

/-- `AircraftDataBridge.find_working_proxy` (lines 121-136). `order` is
the shuffled copy of `self.proxy_list` (the random permutation is an
input); `probes` gives each candidate's probe outcome. Returns the
selected proxy, if any, together with the updated failure dict. -/
def find_working_proxy (s : BridgeState) (order : List String)
    (probes : String → HttpResult) : Option String × Failures :=
  if s.proxy_list.isEmpty then (none, s.proxy_failures)
  else fwp_go probes s.proxy_failures order

/-- `AircraftDataBridge.switch_proxy` (lines 323-339): rotate to a fresh
working proxy if one is found, otherwise fall back to a direct connection
by clearing `use_proxy`, `current_proxy` and `proxies`. -/
def switch_proxy (s : BridgeState) (order : List String)
    (probes : String → HttpResult) : BridgeState :=
  match find_working_proxy s order probes with
  | (some p, d) => { s with proxy_failures := d, current_proxy := some p, proxies := some p }
  | (none, d) =>
      { s with proxy_failures := d, use_proxy := false, current_proxy := none, proxies := none }

/-- The key-presence test at line 238:
`'center_lat' in request_params and 'center_lon' in request_params`. -/
def hasCenter : Option ReqParams → Bool
  | none => false
  | some r => r.center_lat.isSome && r.center_lon.isSome

/-- Lines 241-242 of the source:
`radius_km = float(request_params.get('radius_km', 250))`;
`radius_m = int(max(10000, min(400000, radius_km * 1000)))`. The value
fed to `int` is at least 10000, so truncation is `Rat.floor`. -/
def radius_m (r : ReqParams) : Int :=
  Rat.floor (max 10000 (min 400000 ((r.radius_km.getD 250) * 1000)))

/-- The `dist` query parameter of the Tier-1 URL (line 243), present
exactly when a geo-scoped request is attempted. -/
def tier1_dist (params : Option ReqParams) : Option Int :=
  match params with
  | some r =>
      if r.center_lat.isSome && r.center_lon.isSome then some (radius_m r) else none
  | none => none

/-- The spec's radius formula, stated from the spec's own words for
comparison with the source's `radius_m`:
`radiusMeters = clamp(radiusKm*1000, 10_000, 400_000)`, default
`radiusKm = 250` if absent, with the usual `clamp(x, lo, hi) =
min(hi, max(lo, x))`. -/
def spec_radiusMeters (radiusKm : Option ℚ) : Int :=
  Rat.floor (min 400000 (max 10000 ((radiusKm.getD 250) * 1000)))

/-- The external outcomes of one iteration of the retry loop of
`fetch_and_publish_data`: the Tier-1 and Tier-2 HTTP outcomes, whether
`response.json()`/normalization raises, whether the MQTT publish call
raises, and the shuffle order and probe outcomes consumed by any
`switch_proxy` performed in this iteration. -/
structure AttemptEnv where
  tier1 : HttpResult
  tier2 : HttpResult
  decode_exn : Bool
  publish_exn : Bool
  rot_order : List String
  rot_probes : String → HttpResult

/-- How one iteration of the retry loop ends: a successful publish and
`return` (line 299), the non-200 `else` branch (lines 300-304), or the
`except` branch (lines 306-317). -/
inductive AttemptOutcome where
  | published : AttemptOutcome
  | statusFail : AttemptOutcome
  | exnFail : AttemptOutcome
deriving DecidableEq, Repr

/-- Lines 236-259: the response in hand after the two-tier fallback.
Tier 1 runs only when both center keys are cached (line 238); a Tier-1
exception or non-200 leaves `response = None` (lines 245-250), in which
case Tier 2 is fetched (lines 253-259) and its exception propagates to
the `except` of the attempt. -/
def tier_response (s : BridgeState) (env : AttemptEnv) : HttpResult :=
  if hasCenter s.last_request_params then
    match env.tier1 with
    | .status c => if c == 200 then .status c else env.tier2
    | .exn => env.tier2
  else env.tier2

/-- Lines 310-317: in the `except` branch, only while a proxy is active
(`self.use_proxy and self.current_proxy`) is the current proxy's failure
counter incremented and `switch_proxy` called; otherwise the state is
untouched. -/
def mark_failed_and_switch (s : BridgeState) (env : AttemptEnv) : BridgeState :=
  match s.use_proxy, s.current_proxy with
  | true, some p =>
      switch_proxy { s with proxy_failures := failInc s.proxy_failures p }
        env.rot_order env.rot_probes
  | _, _ => s

/-- One iteration of the `while retry_count < max_retries` loop of
`fetch_and_publish_data` (lines 232-317): produce the two-tier response;
on status 200 decode, normalize and publish (any exception there lands in
the `except` branch), else take the non-200 branch which rotates without
recording a failure. -/
def attempt_step (s : BridgeState) (env : AttemptEnv) : AttemptOutcome × BridgeState :=
  match tier_response s env with
  | .exn => (.exnFail, mark_failed_and_switch s env)
  | .status c =>
    if c == 200 then
      if env.decode_exn || env.publish_exn then (.exnFail, mark_failed_and_switch s env)
      else (.published, s)
    else (.statusFail, switch_proxy s env.rot_order env.rot_probes)

/-- The retry loop of `fetch_and_publish_data` (lines 229-321):
`retry_count` starts at 0, each failed iteration increments it, the loop
runs `while retry_count < 3`, and a successful iteration publishes once
and returns. `envs i` is the environment of the i-th iteration. Returns
(number of iterations run, number of successful publishes, final state). -/
def fetch_go (envs : Nat → AttemptEnv) (i retry_count : Nat) (s : BridgeState) :
    Nat × Nat × BridgeState :=
  if _h : retry_count < 3 then
    match attempt_step s (envs i) with
    | (.published, s1) => (i + 1, 1, s1)
    | (.statusFail, s1) => fetch_go envs (i + 1) (retry_count + 1) s1
    | (.exnFail, s1) => fetch_go envs (i + 1) (retry_count + 1) s1
  else (i, 0, s)
termination_by 3 - retry_count
decreasing_by all_goals omega

/-- `AircraftDataBridge.fetch_and_publish_data` (lines 227-321), with
`max_retries = 3` and `retry_count = 0` at entry. -/
def fetch_and_publish_data (s : BridgeState) (envs : Nat → AttemptEnv) :
    Nat × Nat × BridgeState :=
  fetch_go envs 0 0 s

/-- The state of the bridge after the first `i` iterations of the retry
loop have all failed: iterate `attempt_step` along the attempt
environments. Used to speak about the attempt at index `i` of one
`fetch_and_publish_data` call. -/
def attempt_states (envs : Nat → AttemptEnv) (s : BridgeState) : Nat → BridgeState
  | 0 => s
  | i + 1 => (attempt_step (attempt_states envs s i) (envs i)).2

/-- `AircraftDataBridge.on_message` for the request topic (lines 198-225).
`dec` is the result of `json.loads(payload)` (`none` when it raises
`JSONDecodeError`), `raw` the payload text. A structured message first
replaces `self.last_request_params` (line 211) and triggers a cycle only
for `command == "update"`; an undecodable payload triggers a cycle when
its stripped, lower-cased text is `"update"`. Returns (whether a
fetch-publish cycle ran, iterations, publishes, final state). -/
def on_message (s : BridgeState) (dec : Option ReqParams) (raw : String)
    (envs : Nat → AttemptEnv) : Bool × Nat × Nat × BridgeState :=
  match dec with
  | some r =>
    let s1 := { s with last_request_params := some r }
    if r.command == some "update" then
      let out := fetch_and_publish_data s1 envs
      (true, out.1, out.2.1, out.2.2)
    else (false, 0, 0, s1)
  | none =>
    if strLower (strStrip raw) == "update" then
      let out := fetch_and_publish_data s envs
      (true, out.1, out.2.1, out.2.2)
    else (false, 0, 0, s)

/-- The row loop of `AircraftDataBridge.load_proxies_from_csv`
(lines 89-91): for each CSV row, append its first field to
`self.proxy_list` when that field starts with `socks4://`. -/
def load_proxies (pl : List String) : List (List String) → List String
  | [] => pl
  | row :: rest =>
    match row with
    | [] => load_proxies pl rest
    | f :: _ => load_proxies (if strStartsWith f "socks4://" then pl ++ [f] else pl) rest

/-- The proxy-bootstrap part of `AircraftDataBridge.__init__`
(lines 55-78): `use_proxy` starts true, the CSV rows populate
`proxy_list`, and only when `use_proxy and self.proxy_list` does the
bridge look for a working proxy, clearing `use_proxy` when none is
found. -/
def init_bridge (rows : List (List String)) (order : List String)
    (probes : String → HttpResult) : BridgeState :=
  let pl := load_proxies [] rows
  let s0 : BridgeState :=
    { use_proxy := true, proxy_list := pl, current_proxy := none, proxies := none,
      proxy_failures := [], last_request_params := none, is_connected := false }
  if s0.use_proxy && !pl.isEmpty then
    match find_working_proxy s0 order probes with
    | (some p, d) => { s0 with proxy_failures := d, current_proxy := some p, proxies := some p }
    | (none, d) => { s0 with proxy_failures := d, use_proxy := false }
  else s0

/-- The operations of the life of the pool that touch proxy state after
initialization: a bare rotation, a full fetch-publish cycle (from either
trigger path), a message delivery, and a lone probe. -/
inductive PoolEvent where
  | rotate (order : List String) (probes : String → HttpResult)
  | trigger (envs : Nat → AttemptEnv)
  | message (dec : Option ReqParams) (raw : String) (envs : Nat → AttemptEnv)
  | probe (p : String) (r : HttpResult)

/-- Apply one event to the bridge state. -/
def applyEvent (s : BridgeState) : PoolEvent → BridgeState
  | .rotate o pr => switch_proxy s o pr
  | .trigger envs => (fetch_and_publish_data s envs).2.2
  | .message dec raw envs => (on_message s dec raw envs).2.2.2
  | .probe p r => { s with proxy_failures := (test_proxy s.proxy_failures p r).2 }

/-- Run a sequence of events. -/
def runEvents (s : BridgeState) : List PoolEvent → BridgeState
  | [] => s
  | e :: es => runEvents (applyEvent s e) es

/-! ### Dictionary lemmas -/

theorem failLookup_append_self (d : Failures) (p : String)
    (h : failLookup d p = none) : failLookup (d ++ [(p, 1)]) p = some 1 := by
  induction d with
  | nil => simp [failLookup]
  | cons q d ih =>
    by_cases hq : q.1 = p
    · simp [failLookup, hq] at h
    · simp only [List.cons_append, failLookup, hq, if_neg] at h ⊢
      exact ih h

theorem failLookup_map_self (d : Failures) (p : String) :
    failLookup (d.map (fun q => if q.1 = p then (q.1, q.2 + 1) else q)) p =
      (failLookup d p).map (fun n => n + 1) := by
  induction d with
  | nil => simp [failLookup]
  | cons q d ih =>
    by_cases hq : q.1 = p
    · simp [failLookup, hq]
    · simp [failLookup, hq, ih]

theorem failLookup_inc_self (d : Failures) (p : String) :
    failLookup (failInc d p) p = some (failCount d p + 1) := by
  unfold failInc
  cases h : failLookup d p with
  | none => simp only [failCount, h, Option.getD_none]; exact failLookup_append_self d p h
  | some n => simp [failCount, h, failLookup_map_self]

theorem failCount_inc_self (d : Failures) (p : String) :
    failCount (failInc d p) p = failCount d p + 1 := by
  simp [failCount, failLookup_inc_self]

theorem failLookup_append_ne (d : Failures) (p q : String) (h : q ≠ p) :
    failLookup (d ++ [(p, 1)]) q = failLookup d q := by
  induction d with
  | nil => simp [failLookup, Ne.symm h]
  | cons r d ih =>
    by_cases hr : r.1 = q
    · simp [failLookup, hr]
    · simp [failLookup, hr, ih]

theorem failLookup_map_ne (d : Failures) (p q : String) (h : q ≠ p) :
    failLookup (d.map (fun r => if r.1 = p then (r.1, r.2 + 1) else r)) q =
      failLookup d q := by
  induction d with
  | nil => simp [failLookup]
  | cons r d ih =>
    by_cases hrp : r.1 = p
    · have hrq : r.1 ≠ q := by rw [hrp]; exact Ne.symm h
      simp [failLookup, hrp, hrq, Ne.symm h, ih]
    · by_cases hrq : r.1 = q
      · simp [failLookup, hrp, hrq, h]
      · simp [failLookup, hrp, hrq, ih]

theorem failLookup_inc_ne (d : Failures) (p q : String) (h : q ≠ p) :
    failLookup (failInc d p) q = failLookup d q := by
  unfold failInc
  cases hp : failLookup d p with
  | none => exact failLookup_append_ne d p q h
  | some n => exact failLookup_map_ne d p q h

theorem blacklisted_of_count (d : Failures) (p : String)
    (h : 3 ≤ failCount d p) : blacklisted d p = true := by
  unfold blacklisted
  cases hl : failLookup d p with
  | none => simp [failCount, hl] at h
  | some n => simp only [failCount, hl, Option.getD_some] at h; simpa using h

theorem blacklisted_failInc (d : Failures) (p q : String)
    (h : blacklisted d p = true) : blacklisted (failInc d q) p = true := by
  by_cases hq : p = q
  · subst hq
    unfold blacklisted at h ⊢
    rw [failLookup_inc_self]
    cases hl : failLookup d p with
    | none => rw [hl] at h; simp at h
    | some n =>
      rw [hl] at h
      simp only [decide_eq_true_eq] at h
      simp only [failCount, hl, Option.getD_some, decide_eq_true_eq]
      omega
  · unfold blacklisted at h ⊢
    rw [failLookup_inc_ne d q p hq]
    exact h

/-! ### test_proxy and find_working_proxy lemmas -/

theorem test_proxy_true (d : Failures) (p : String) (probe : HttpResult)
    (h : (test_proxy d p probe).1 = true) :
    blacklisted d p = false ∧ (test_proxy d p probe).2 = d ∧ probe = .status 200 := by
  unfold test_proxy at h ⊢
  by_cases hb : blacklisted d p = true
  · rw [if_pos hb] at h; simp at h
  · rw [if_neg hb] at h ⊢
    cases probe with
    | exn => simp at h
    | status c =>
      have hc : c = 200 := by simpa using h
      subst hc
      exact ⟨by simpa using hb, rfl, rfl⟩

theorem test_proxy_black_pres (d : Failures) (p q : String) (probe : HttpResult)
    (h : blacklisted d p = true) :
    blacklisted (test_proxy d q probe).2 p = true := by
  unfold test_proxy
  by_cases hb : blacklisted d q
  · simpa [hb]
  · cases probe with
    | exn => simpa [hb] using blacklisted_failInc d p q h
    | status c => simpa [hb]

theorem fwp_go_black (probes : String → HttpResult) (p : String) :
    ∀ (order : List String) (d : Failures), blacklisted d p = true →
      (fwp_go probes d order).1 ≠ some p ∧
      blacklisted (fwp_go probes d order).2 p = true := by
  intro order
  induction order with
  | nil => intro d h; exact ⟨by simp [fwp_go], by simpa [fwp_go]⟩
  | cons q rest ih =>
    intro d h
    rcases htp : test_proxy d q (probes q) with ⟨b, d1⟩
    cases b with
    | true =>
      have ht := test_proxy_true d q (probes q) (by rw [htp])
      have hqp : q ≠ p := by
        intro hc; subst hc; rw [ht.1] at h; exact Bool.false_ne_true h
      have hd1 : d1 = d := by have := ht.2.1; rw [htp] at this; exact this
      subst hd1
      constructor
      · simp only [fwp_go, htp]
        intro hc
        exact hqp (by injection hc)
      · simpa only [fwp_go, htp]
    | false =>
      have hb1 : blacklisted d1 p = true := by
        have := test_proxy_black_pres d p q (probes q) h
        rw [htp] at this; exact this
      have := ih d1 hb1
      constructor
      · simpa only [fwp_go, htp] using this.1
      · simpa only [fwp_go, htp] using this.2

theorem find_working_proxy_black (s : BridgeState) (p : String)
    (order : List String) (probes : String → HttpResult)
    (h : blacklisted s.proxy_failures p = true) :
    (find_working_proxy s order probes).1 ≠ some p ∧
    blacklisted (find_working_proxy s order probes).2 p = true := by
  unfold find_working_proxy
  by_cases he : s.proxy_list.isEmpty
  · simpa [he]
  · simpa [he] using fwp_go_black probes p order s.proxy_failures h

theorem fwp_go_some (probes : String → HttpResult) (p : String) :
    ∀ (order : List String) (d : Failures),
      (fwp_go probes d order).1 = some p → probes p = .status 200 := by
  intro order
  induction order with
  | nil => intro d h; simp [fwp_go] at h
  | cons q rest ih =>
    intro d h
    rcases htp : test_proxy d q (probes q) with ⟨b, d1⟩
    cases b with
    | true =>
      simp only [fwp_go, htp] at h
      have hqp : q = p := by injection h
      subst hqp
      exact (test_proxy_true d q (probes q) (by rw [htp])).2.2
    | false =>
      simp only [fwp_go, htp] at h
      exact ih d1 h

theorem find_working_proxy_some (s : BridgeState) (p : String)
    (order : List String) (probes : String → HttpResult)
    (h : (find_working_proxy s order probes).1 = some p) :
    probes p = .status 200 := by
  unfold find_working_proxy at h
  by_cases he : s.proxy_list.isEmpty
  · simp [he] at h
  · simp only [he, Bool.false_eq_true, if_neg, if_false] at h
    exact fwp_go_some probes p order s.proxy_failures h

/-! ### Frame and preservation lemmas for rotation and fetch attempts -/

theorem switch_proxy_frame (s : BridgeState) (o : List String)
    (pr : String → HttpResult) :
    (switch_proxy s o pr).is_connected = s.is_connected ∧
    (switch_proxy s o pr).proxy_list = s.proxy_list ∧
    (switch_proxy s o pr).last_request_params = s.last_request_params := by
  unfold switch_proxy
  rcases hf : find_working_proxy s o pr with ⟨np, d⟩
  cases np <;> simp

theorem switch_proxy_black (s : BridgeState) (p : String) (o : List String)
    (pr : String → HttpResult) (h : blacklisted s.proxy_failures p = true) :
    blacklisted (switch_proxy s o pr).proxy_failures p = true := by
  unfold switch_proxy
  have hb := (find_working_proxy_black s p o pr h).2
  rcases hf : find_working_proxy s o pr with ⟨np, d⟩
  rw [hf] at hb
  cases np <;> simpa using hb

theorem switch_proxy_use_proxy_false (s : BridgeState) (o : List String)
    (pr : String → HttpResult) (h : s.use_proxy = false) :
    (switch_proxy s o pr).use_proxy = false := by
  unfold switch_proxy
  rcases hf : find_working_proxy s o pr with ⟨np, d⟩
  cases np
  · simp
  · simpa using h

theorem mark_failed_frame (s : BridgeState) (env : AttemptEnv) :
    (mark_failed_and_switch s env).is_connected = s.is_connected ∧
    (mark_failed_and_switch s env).proxy_list = s.proxy_list ∧
    (mark_failed_and_switch s env).last_request_params = s.last_request_params := by
  unfold mark_failed_and_switch
  rcases hu : s.use_proxy with _ | _ <;> rcases hc : s.current_proxy with _ | p
  · exact ⟨rfl, rfl, rfl⟩
  · exact ⟨rfl, rfl, rfl⟩
  · exact ⟨rfl, rfl, rfl⟩
  · exact switch_proxy_frame _ env.rot_order env.rot_probes

theorem mark_failed_black (s : BridgeState) (p : String) (env : AttemptEnv)
    (h : blacklisted s.proxy_failures p = true) :
    blacklisted (mark_failed_and_switch s env).proxy_failures p = true := by
  unfold mark_failed_and_switch
  rcases hu : s.use_proxy with _ | _ <;> rcases hc : s.current_proxy with _ | q
  · exact h
  · exact h
  · exact h
  · exact switch_proxy_black _ p env.rot_order env.rot_probes
      (by simpa using blacklisted_failInc s.proxy_failures p q h)

theorem mark_failed_use_proxy_false (s : BridgeState) (env : AttemptEnv)
    (h : s.use_proxy = false) :
    (mark_failed_and_switch s env).use_proxy = false := by
  unfold mark_failed_and_switch
  rw [h]
  rcases hc : s.current_proxy with _ | q <;> exact h

theorem attempt_step_frame (s : BridgeState) (env : AttemptEnv) :
    (attempt_step s env).2.is_connected = s.is_connected ∧
    (attempt_step s env).2.proxy_list = s.proxy_list ∧
    (attempt_step s env).2.last_request_params = s.last_request_params := by
  unfold attempt_step
  rcases ht : tier_response s env with _ | c
  · exact mark_failed_frame s env
  · by_cases hc : (c == 200) = true
    · by_cases hd : (env.decode_exn || env.publish_exn) = true
      · simpa [hc, hd] using mark_failed_frame s env
      · simp [hc, hd]
    · simpa [hc] using switch_proxy_frame s env.rot_order env.rot_probes

theorem attempt_step_black (s : BridgeState) (p : String) (env : AttemptEnv)
    (h : blacklisted s.proxy_failures p = true) :
    blacklisted (attempt_step s env).2.proxy_failures p = true := by
  unfold attempt_step
  rcases ht : tier_response s env with _ | c
  · exact mark_failed_black s p env h
  · by_cases hc : (c == 200) = true
    · by_cases hd : (env.decode_exn || env.publish_exn) = true
      · simpa [hc, hd] using mark_failed_black s p env h
      · simpa [hc, hd] using h
    · simpa [hc] using switch_proxy_black s p env.rot_order env.rot_probes h

theorem attempt_step_use_proxy_false (s : BridgeState) (env : AttemptEnv)
    (h : s.use_proxy = false) :
    (attempt_step s env).2.use_proxy = false := by
  unfold attempt_step
  rcases ht : tier_response s env with _ | c
  · exact mark_failed_use_proxy_false s env h
  · by_cases hc : (c == 200) = true
    · by_cases hd : (env.decode_exn || env.publish_exn) = true
      · simpa [hc, hd] using mark_failed_use_proxy_false s env h
      · simpa [hc, hd] using h
    · simpa [hc] using switch_proxy_use_proxy_false s env.rot_order env.rot_probes h

/-! ### Unfolding and induction lemmas for the retry loop -/

theorem fetch_go_stop (envs : Nat → AttemptEnv) (i retry_count : Nat)
    (s : BridgeState) (h : ¬ retry_count < 3) :
    fetch_go envs i retry_count s = (i, 0, s) := by
  rw [fetch_go]
  simp [h]

theorem fetch_go_step (envs : Nat → AttemptEnv) (i retry_count : Nat)
    (s : BridgeState) (h : retry_count < 3) :
    fetch_go envs i retry_count s =
      match attempt_step s (envs i) with
      | (.published, s1) => (i + 1, 1, s1)
      | (.statusFail, s1) => fetch_go envs (i + 1) (retry_count + 1) s1
      | (.exnFail, s1) => fetch_go envs (i + 1) (retry_count + 1) s1 := by
  rw [fetch_go]
  simp [h]

theorem fetch_go_published (envs : Nat → AttemptEnv) (i retry_count : Nat)
    (s s1 : BridgeState) (h : retry_count < 3)
    (ha : attempt_step s (envs i) = (.published, s1)) :
    fetch_go envs i retry_count s = (i + 1, 1, s1) := by
  rw [fetch_go_step envs i retry_count s h, ha]

theorem fetch_go_fail (envs : Nat → AttemptEnv) (i retry_count : Nat)
    (s s1 : BridgeState) (o : AttemptOutcome) (h : retry_count < 3)
    (ho : o ≠ .published) (ha : attempt_step s (envs i) = (o, s1)) :
    fetch_go envs i retry_count s = fetch_go envs (i + 1) (retry_count + 1) s1 := by
  rw [fetch_go_step envs i retry_count s h, ha]
  cases o with
  | published => exact absurd rfl ho
  | statusFail => rfl
  | exnFail => rfl

theorem fetch_go_pres (P : BridgeState → Prop)
    (hstep : ∀ s e, P s → P (attempt_step s e).2) (envs : Nat → AttemptEnv) :
    ∀ (k i retry_count : Nat) (s : BridgeState), 3 - retry_count ≤ k → P s →
      P (fetch_go envs i retry_count s).2.2 := by
  intro k
  induction k with
  | zero =>
    intro i retry s hk hp
    rw [fetch_go_stop envs i retry s (by omega)]
    exact hp
  | succ k ih =>
    intro i retry s hk hp
    by_cases h3 : retry < 3
    · rcases ha : attempt_step s (envs i) with ⟨o, s1⟩
      have hp1 : P s1 := by
        have hh := hstep s (envs i) hp
        rw [ha] at hh
        exact hh
      cases o with
      | published => rw [fetch_go_published envs i retry s s1 h3 ha]; exact hp1
      | statusFail =>
        rw [fetch_go_fail envs i retry s s1 _ h3 (by simp) ha]
        exact ih (i + 1) (retry + 1) s1 (by omega) hp1
      | exnFail =>
        rw [fetch_go_fail envs i retry s s1 _ h3 (by simp) ha]
        exact ih (i + 1) (retry + 1) s1 (by omega) hp1
    · rw [fetch_go_stop envs i retry s h3]
      exact hp

theorem fetch_go_count (envs : Nat → AttemptEnv) :
    ∀ (k i retry_count : Nat) (s : BridgeState), 3 - retry_count ≤ k →
      (fetch_go envs i retry_count s).1 ≤ i + (3 - retry_count) ∧
      (fetch_go envs i retry_count s).2.1 ≤ 1 ∧
      ((fetch_go envs i retry_count s).2.1 = 0 →
        (fetch_go envs i retry_count s).1 = i + (3 - retry_count)) := by
  intro k
  induction k with
  | zero =>
    intro i retry s hk
    rw [fetch_go_stop envs i retry s (by omega)]
    refine ⟨by simp, by simp, fun _ => by simp; omega⟩
  | succ k ih =>
    intro i retry s hk
    by_cases h3 : retry < 3
    · rcases ha : attempt_step s (envs i) with ⟨o, s1⟩
      cases o with
      | published =>
        rw [fetch_go_published envs i retry s s1 h3 ha]
        refine ⟨by simp; omega, by simp, fun hz => by simp at hz⟩
      | statusFail =>
        rw [fetch_go_fail envs i retry s s1 _ h3 (by simp) ha]
        have hih := ih (i + 1) (retry + 1) s1 (by omega)
        have h1 := hih.1
        refine ⟨by omega, hih.2.1, fun hz => ?_⟩
        have h2 := hih.2.2 hz
        omega
      | exnFail =>
        rw [fetch_go_fail envs i retry s s1 _ h3 (by simp) ha]
        have hih := ih (i + 1) (retry + 1) s1 (by omega)
        have h1 := hih.1
        refine ⟨by omega, hih.2.1, fun hz => ?_⟩
        have h2 := hih.2.2 hz
        omega
    · rw [fetch_go_stop envs i retry s h3]
      refine ⟨by simp, by simp, fun _ => by simp; omega⟩

/-! ### Preservation through a whole fetch-publish cycle and event traces -/

theorem fetch_and_publish_black (s : BridgeState) (p : String)
    (envs : Nat → AttemptEnv) (h : blacklisted s.proxy_failures p = true) :
    blacklisted (fetch_and_publish_data s envs).2.2.proxy_failures p = true :=
  fetch_go_pres (fun x => blacklisted x.proxy_failures p = true)
    (fun x e hx => attempt_step_black x p e hx) envs 3 0 0 s (by omega) h

theorem fetch_and_publish_use_proxy_false (s : BridgeState)
    (envs : Nat → AttemptEnv) (h : s.use_proxy = false) :
    (fetch_and_publish_data s envs).2.2.use_proxy = false :=
  fetch_go_pres (fun x => x.use_proxy = false)
    (fun x e hx => attempt_step_use_proxy_false x e hx) envs 3 0 0 s (by omega) h

theorem fetch_and_publish_is_connected (s : BridgeState)
    (envs : Nat → AttemptEnv) :
    (fetch_and_publish_data s envs).2.2.is_connected = s.is_connected :=
  fetch_go_pres (fun x => x.is_connected = s.is_connected)
    (fun x e hx => by
      show (attempt_step x e).2.is_connected = s.is_connected
      rw [(attempt_step_frame x e).1]
      exact hx) envs 3 0 0 s (by omega) rfl

theorem fetch_and_publish_last_params (s : BridgeState)
    (envs : Nat → AttemptEnv) :
    (fetch_and_publish_data s envs).2.2.last_request_params =
      s.last_request_params :=
  fetch_go_pres (fun x => x.last_request_params = s.last_request_params)
    (fun x e hx => by
      show (attempt_step x e).2.last_request_params = s.last_request_params
      rw [(attempt_step_frame x e).2.2]
      exact hx) envs 3 0 0 s (by omega) rfl

theorem on_message_black (s : BridgeState) (p : String) (dec : Option ReqParams)
    (raw : String) (envs : Nat → AttemptEnv)
    (h : blacklisted s.proxy_failures p = true) :
    blacklisted (on_message s dec raw envs).2.2.2.proxy_failures p = true := by
  unfold on_message
  cases dec with
  | some r =>
    by_cases hcmd : (r.command == some "update") = true
    · simpa [hcmd] using
        fetch_and_publish_black { s with last_request_params := some r } p envs h
    · simpa [hcmd] using h
  | none =>
    by_cases hraw : (strLower (strStrip raw) == "update") = true
    · simpa [hraw] using fetch_and_publish_black s p envs h
    · simpa [hraw] using h

theorem on_message_use_proxy_false (s : BridgeState) (dec : Option ReqParams)
    (raw : String) (envs : Nat → AttemptEnv) (h : s.use_proxy = false) :
    (on_message s dec raw envs).2.2.2.use_proxy = false := by
  unfold on_message
  cases dec with
  | some r =>
    by_cases hcmd : (r.command == some "update") = true
    · simpa [hcmd] using
        fetch_and_publish_use_proxy_false { s with last_request_params := some r } envs h
    · simpa [hcmd] using h
  | none =>
    by_cases hraw : (strLower (strStrip raw) == "update") = true
    · simpa [hraw] using fetch_and_publish_use_proxy_false s envs h
    · simpa [hraw] using h

theorem applyEvent_black (s : BridgeState) (p : String) (e : PoolEvent)
    (h : blacklisted s.proxy_failures p = true) :
    blacklisted (applyEvent s e).proxy_failures p = true := by
  cases e with
  | rotate o pr => exact switch_proxy_black s p o pr h
  | trigger envs => exact fetch_and_publish_black s p envs h
  | message dec raw envs => exact on_message_black s p dec raw envs h
  | probe q r => exact test_proxy_black_pres s.proxy_failures p q r h

theorem applyEvent_use_proxy_false (s : BridgeState) (e : PoolEvent)
    (h : s.use_proxy = false) :
    (applyEvent s e).use_proxy = false := by
  cases e with
  | rotate o pr => exact switch_proxy_use_proxy_false s o pr h
  | trigger envs => exact fetch_and_publish_use_proxy_false s envs h
  | message dec raw envs => exact on_message_use_proxy_false s dec raw envs h
  | probe q r => exact h

theorem runEvents_black (p : String) :
    ∀ (evs : List PoolEvent) (s : BridgeState),
      blacklisted s.proxy_failures p = true →
      blacklisted (runEvents s evs).proxy_failures p = true := by
  intro evs
  induction evs with
  | nil => intro s h; exact h
  | cons e es ih => intro s h; exact ih (applyEvent s e) (applyEvent_black s p e h)

theorem runEvents_use_proxy_false :
    ∀ (evs : List PoolEvent) (s : BridgeState), s.use_proxy = false →
      (runEvents s evs).use_proxy = false := by
  intro evs
  induction evs with
  | nil => intro s h; exact h
  | cons e es ih => intro s h; exact ih (applyEvent s e) (applyEvent_use_proxy_false s e h)

/-! ### Claim C1 -/

/-- C1: once a candidate's recorded failure count has reached 3,
`find_working_proxy` never returns that candidate again for the life of
the pool, no matter which rotations, fetch-publish cycles, message
deliveries or probes happen afterwards and regardless of their
outcomes. -/
theorem C1_blacklisted_never_selected (s : BridgeState) (p : String)
    (h : 3 ≤ failCount s.proxy_failures p) (evs : List PoolEvent)
    (order : List String) (probes : String → HttpResult) :
    (find_working_proxy (runEvents s evs) order probes).1 ≠ some p := by
  have hb := blacklisted_of_count s.proxy_failures p h
  exact (find_working_proxy_black (runEvents s evs) p order probes
    (runEvents_black p evs s hb)).1

/-- Witness for C1 at a concrete pool: one candidate with 3 recorded
failures, a later rotation and probe that both report success, and a
final selection attempt. -/
theorem C1_blacklisted_never_selected_witness :
    3 ≤ failCount [("socks4://1.2.3.4:1080", 3)] "socks4://1.2.3.4:1080" ∧
    (find_working_proxy
        (runEvents
          { use_proxy := true, proxy_list := ["socks4://1.2.3.4:1080"],
            current_proxy := some "socks4://1.2.3.4:1080",
            proxies := some "socks4://1.2.3.4:1080",
            proxy_failures := [("socks4://1.2.3.4:1080", 3)],
            last_request_params := none, is_connected := true }
          [PoolEvent.rotate ["socks4://1.2.3.4:1080"] (fun _ => HttpResult.status 200),
           PoolEvent.probe "socks4://1.2.3.4:1080" (HttpResult.status 200)])
        ["socks4://1.2.3.4:1080"] (fun _ => HttpResult.status 200)).1 ≠
      some "socks4://1.2.3.4:1080" :=
  ⟨by decide, C1_blacklisted_never_selected _ _ (by decide) _ _ _⟩

/-! ### Claim C2 -/

/-- C2 counterexample: a probe that returns status 500 through a fresh
candidate makes `test_proxy` return false, yet the failure count is NOT
incremented by one (it stays 0), contradicting the claim that any
non-success status increments `failureCount`. -/
theorem C2_counterexample :
    (test_proxy [] "socks4://1.2.3.4:1080" (HttpResult.status 500)).1 = false ∧
    failCount (test_proxy [] "socks4://1.2.3.4:1080" (HttpResult.status 500)).2
        "socks4://1.2.3.4:1080" ≠
      failCount [] "socks4://1.2.3.4:1080" + 1 := by
  decide

/-- C2 amended: for a non-blacklisted candidate, `test_proxy` returns
false and increments the failure count by exactly one when the probe
raises an exception; a non-success status returns false but leaves the
failure count unchanged; a 200 status returns true and leaves the
failure count unchanged. -/
theorem C2_probe_failure_accounting (d : Failures) (p : String)
    (h : blacklisted d p = false) :
    (test_proxy d p HttpResult.exn = (false, failInc d p) ∧
      failCount (failInc d p) p = failCount d p + 1) ∧
    (∀ c : Nat, c ≠ 200 → test_proxy d p (HttpResult.status c) = (false, d)) ∧
    test_proxy d p (HttpResult.status 200) = (true, d) := by
  refine ⟨⟨?_, failCount_inc_self d p⟩, fun c hc => ?_, ?_⟩
  · simp [test_proxy, h]
  · simp [test_proxy, h, hc]
  · simp [test_proxy, h]

/-- Witness for C2 amended at a fresh candidate. -/
theorem C2_probe_failure_accounting_witness :
    blacklisted [] "socks4://1.2.3.4:1080" = false ∧
    ((test_proxy [] "socks4://1.2.3.4:1080" HttpResult.exn =
        (false, failInc [] "socks4://1.2.3.4:1080") ∧
      failCount (failInc [] "socks4://1.2.3.4:1080") "socks4://1.2.3.4:1080" =
        failCount [] "socks4://1.2.3.4:1080" + 1) ∧
     (∀ c : Nat, c ≠ 200 →
        test_proxy [] "socks4://1.2.3.4:1080" (HttpResult.status c) = (false, [])) ∧
     test_proxy [] "socks4://1.2.3.4:1080" (HttpResult.status 200) = (true, [])) :=
  ⟨by decide, C2_probe_failure_accounting [] "socks4://1.2.3.4:1080" (by decide)⟩

/-! ### Claim C3 -/

/-- C3 counterexample: with a proxy active, an attempt that fails with a
non-200 status (Tier 2 answers 500) rotates but records NO failure
against the active proxy, falsifying "every failed fetch attempt made
while a proxy is active records exactly one failure". -/
theorem C3_counterexample :
    (attempt_step
        { use_proxy := true, proxy_list := ["socks4://1.1.1.1:1080"],
          current_proxy := some "socks4://1.1.1.1:1080",
          proxies := some "socks4://1.1.1.1:1080", proxy_failures := [],
          last_request_params := none, is_connected := true }
        { tier1 := HttpResult.exn, tier2 := HttpResult.status 500,
          decode_exn := false, publish_exn := false,
          rot_order := ["socks4://1.1.1.1:1080"],
          rot_probes := fun _ => HttpResult.status 500 }).1 =
      AttemptOutcome.statusFail ∧
    failCount
        (attempt_step
          { use_proxy := true, proxy_list := ["socks4://1.1.1.1:1080"],
            current_proxy := some "socks4://1.1.1.1:1080",
            proxies := some "socks4://1.1.1.1:1080", proxy_failures := [],
            last_request_params := none, is_connected := true }
          { tier1 := HttpResult.exn, tier2 := HttpResult.status 500,
            decode_exn := false, publish_exn := false,
            rot_order := ["socks4://1.1.1.1:1080"],
            rot_probes := fun _ => HttpResult.status 500 }).2.proxy_failures
        "socks4://1.1.1.1:1080" ≠ 0 + 1 := by
  decide

/-- C3 amended: while a proxy is active, an attempt that fails in the
`except` branch (transport exception, or any exception after a 200
response) records exactly one failure against the active proxy and then
rotates; an attempt that fails with a non-200 status rotates without
recording any failure. -/
theorem C3_failure_recording (s : BridgeState) (env : AttemptEnv) (p : String)
    (hu : s.use_proxy = true) (hc : s.current_proxy = some p) :
    ((tier_response s env = HttpResult.exn ∨
        (tier_response s env = HttpResult.status 200 ∧
          (env.decode_exn || env.publish_exn) = true)) →
      attempt_step s env =
        (AttemptOutcome.exnFail,
          switch_proxy { s with proxy_failures := failInc s.proxy_failures p }
            env.rot_order env.rot_probes) ∧
      failCount (failInc s.proxy_failures p) p = failCount s.proxy_failures p + 1) ∧
    (∀ c : Nat, c ≠ 200 → tier_response s env = HttpResult.status c →
      attempt_step s env =
        (AttemptOutcome.statusFail, switch_proxy s env.rot_order env.rot_probes)) := by
  have hmark : mark_failed_and_switch s env =
      switch_proxy { s with proxy_failures := failInc s.proxy_failures p }
        env.rot_order env.rot_probes := by
    unfold mark_failed_and_switch
    rw [hu, hc]
  constructor
  · rintro (hexn | ⟨h200, hde⟩)
    · refine ⟨?_, failCount_inc_self s.proxy_failures p⟩
      unfold attempt_step
      rw [hexn, hmark]
    · refine ⟨?_, failCount_inc_self s.proxy_failures p⟩
      unfold attempt_step
      rw [h200]
      simp [hde, hmark]
  · intro c hcne h200
    unfold attempt_step
    rw [h200]
    simp [hcne]

/-- Witness for C3 amended: an active proxy whose attempt dies in the
decode step after a 200 response records exactly one failure and
rotates. -/
theorem C3_failure_recording_witness :
    attempt_step
        { use_proxy := true, proxy_list := ["socks4://1.1.1.1:1080"],
          current_proxy := some "socks4://1.1.1.1:1080",
          proxies := some "socks4://1.1.1.1:1080", proxy_failures := [],
          last_request_params := none, is_connected := true }
        { tier1 := HttpResult.exn, tier2 := HttpResult.status 200,
          decode_exn := true, publish_exn := false,
          rot_order := ["socks4://1.1.1.1:1080"],
          rot_probes := fun _ => HttpResult.status 500 } =
      (AttemptOutcome.exnFail,
        switch_proxy
          { use_proxy := true, proxy_list := ["socks4://1.1.1.1:1080"],
            current_proxy := some "socks4://1.1.1.1:1080",
            proxies := some "socks4://1.1.1.1:1080",
            proxy_failures := failInc [] "socks4://1.1.1.1:1080",
            last_request_params := none, is_connected := true }
          ["socks4://1.1.1.1:1080"] (fun _ => HttpResult.status 500)) ∧
    failCount (failInc [] "socks4://1.1.1.1:1080") "socks4://1.1.1.1:1080" =
      failCount [] "socks4://1.1.1.1:1080" + 1 :=
  (C3_failure_recording _ _ "socks4://1.1.1.1:1080" (by decide) (by decide)).1
    (Or.inr ⟨by decide, by decide⟩)

/-! ### Claim C4 -/

theorem fetch_go_after_failures (envs : Nat → AttemptEnv) (s : BridgeState) :
    ∀ k, k ≤ 3 →
      (∀ j, j < k →
        (attempt_step (attempt_states envs s j) (envs j)).1 ≠
          AttemptOutcome.published) →
      fetch_go envs 0 0 s = fetch_go envs k k (attempt_states envs s k) := by
  intro k
  induction k with
  | zero => intro _ _; rfl
  | succ k ih =>
    intro hk hfail
    rw [ih (by omega) (fun j hj => hfail j (by omega))]
    rcases ha : attempt_step (attempt_states envs s k) (envs k) with ⟨o, s1⟩
    have ho : o ≠ AttemptOutcome.published := by
      intro hc
      subst hc
      exact hfail k (by omega) (by rw [ha])
    rw [fetch_go_fail envs k k (attempt_states envs s k) s1 o (by omega) ho ha]
    have hs1 : attempt_states envs s (k + 1) = s1 := by
      show (attempt_step (attempt_states envs s k) (envs k)).2 = s1
      rw [ha]
    rw [hs1]

/-- C4: a single trigger of `fetch_and_publish_data` runs at most 3
attempts and publishes at most once; at the FIRST attempt that succeeds
(all earlier attempts having failed), it publishes exactly once and
returns immediately with no further attempts; when all 3 attempts fail it
returns without publishing anything (the function is total, so it never
raises) and with the connection state untouched. -/
theorem C4_retry_bound (s : BridgeState) (envs : Nat → AttemptEnv) :
    (fetch_and_publish_data s envs).1 ≤ 3 ∧
    ((fetch_and_publish_data s envs).2.1 = 0 ∨ (fetch_and_publish_data s envs).2.1 = 1) ∧
    (∀ k, k < 3 →
      (∀ j, j < k →
        (attempt_step (attempt_states envs s j) (envs j)).1 ≠
          AttemptOutcome.published) →
      (attempt_step (attempt_states envs s k) (envs k)).1 = AttemptOutcome.published →
      fetch_and_publish_data s envs =
        (k + 1, 1, (attempt_step (attempt_states envs s k) (envs k)).2)) ∧
    ((∀ j, j < 3 →
        (attempt_step (attempt_states envs s j) (envs j)).1 ≠
          AttemptOutcome.published) →
      fetch_and_publish_data s envs = (3, 0, attempt_states envs s 3)) ∧
    (fetch_and_publish_data s envs).2.2.is_connected = s.is_connected := by
  have hcount := fetch_go_count envs 3 0 0 s (by omega)
  refine ⟨?_, ?_, ?_, ?_, fetch_and_publish_is_connected s envs⟩
  · have h1 := hcount.1
    unfold fetch_and_publish_data
    omega
  · have h2 := hcount.2.1
    unfold fetch_and_publish_data
    omega
  · intro k hk3 hfail hpub
    unfold fetch_and_publish_data
    rw [fetch_go_after_failures envs s k (by omega) hfail]
    rcases ha : attempt_step (attempt_states envs s k) (envs k) with ⟨o, s1⟩
    rw [ha] at hpub
    cases o with
    | published => rw [fetch_go_published envs k k (attempt_states envs s k) s1 hk3 ha]
    | statusFail => simp at hpub
    | exnFail => simp at hpub
  · intro hfail
    unfold fetch_and_publish_data
    rw [fetch_go_after_failures envs s 3 (by omega) hfail,
      fetch_go_stop envs 3 3 (attempt_states envs s 3) (by omega)]

/-- Witness for C4: a run whose first attempt fails with a 500 status and
whose second attempt succeeds stops right after the second attempt with
exactly one publish. -/
theorem C4_retry_bound_witness :
    fetch_and_publish_data
        { use_proxy := false, proxy_list := [], current_proxy := none,
          proxies := none, proxy_failures := [], last_request_params := none,
          is_connected := true }
        (fun i =>
          if i == 0 then
            { tier1 := HttpResult.exn, tier2 := HttpResult.status 500,
              decode_exn := false, publish_exn := false, rot_order := [],
              rot_probes := fun _ => HttpResult.exn }
          else
            { tier1 := HttpResult.exn, tier2 := HttpResult.status 200,
              decode_exn := false, publish_exn := false, rot_order := [],
              rot_probes := fun _ => HttpResult.exn }) =
      (2, 1,
        (attempt_step
          (attempt_states
            (fun i =>
              if i == 0 then
                { tier1 := HttpResult.exn, tier2 := HttpResult.status 500,
                  decode_exn := false, publish_exn := false, rot_order := [],
                  rot_probes := fun _ => HttpResult.exn }
              else
                { tier1 := HttpResult.exn, tier2 := HttpResult.status 200,
                  decode_exn := false, publish_exn := false, rot_order := [],
                  rot_probes := fun _ => HttpResult.exn })
            { use_proxy := false, proxy_list := [], current_proxy := none,
              proxies := none, proxy_failures := [], last_request_params := none,
              is_connected := true } 1)
          ({ tier1 := HttpResult.exn, tier2 := HttpResult.status 200,
             decode_exn := false, publish_exn := false, rot_order := [],
             rot_probes := fun _ => HttpResult.exn } : AttemptEnv)).2) := by
  have h := C4_retry_bound
    { use_proxy := false, proxy_list := [], current_proxy := none,
      proxies := none, proxy_failures := [], last_request_params := none,
      is_connected := true }
    (fun i =>
      if i == 0 then
        { tier1 := HttpResult.exn, tier2 := HttpResult.status 500,
          decode_exn := false, publish_exn := false, rot_order := [],
          rot_probes := fun _ => HttpResult.exn }
      else
        { tier1 := HttpResult.exn, tier2 := HttpResult.status 200,
          decode_exn := false, publish_exn := false, rot_order := [],
          rot_probes := fun _ => HttpResult.exn })
  refine h.2.2.1 1 (by omega) ?_ (by decide)
  intro j hj
  have hj0 : j = 0 := by omega
  subst hj0
  decide

/-! ### Claim C5 -/

/-- C5 counterexample: (i) initializing with an empty proxy list leaves
`use_proxy` true while `current_proxy` is null, violating the claimed
invariant right after initialization; (ii) after `use_proxy` has been
forced false, a later rotation that does find a working candidate sets
`current_proxy` but never restores `use_proxy`, so proxy use does not
resume when a later rotation succeeds. -/
theorem C5_counterexample :
    ((init_bridge [] [] (fun _ => HttpResult.exn)).use_proxy = true ∧
      (init_bridge [] [] (fun _ => HttpResult.exn)).current_proxy = none) ∧
    ((switch_proxy
        { use_proxy := false, proxy_list := ["socks4://5.5.5.5:1080"],
          current_proxy := none, proxies := none, proxy_failures := [],
          last_request_params := none, is_connected := true }
        ["socks4://5.5.5.5:1080"] (fun _ => HttpResult.status 200)).current_proxy =
          some "socks4://5.5.5.5:1080" ∧
      (switch_proxy
        { use_proxy := false, proxy_list := ["socks4://5.5.5.5:1080"],
          current_proxy := none, proxies := none, proxy_failures := [],
          last_request_params := none, is_connected := true }
        ["socks4://5.5.5.5:1080"] (fun _ => HttpResult.status 200)).use_proxy = false) := by
  decide

/-- C5 amended: provided the loaded candidate list is non-empty, the
invariant holds after initialization: `use_proxy = true` implies
`current_proxy` is a candidate whose probe succeeded. After any rotation
the same holds, and a rotation that finds no working candidate forces
`use_proxy` to false; once false, `use_proxy` stays false for the rest of
the run (no later event resets it). -/
theorem C5_proxy_invariant :
    (∀ (rows : List (List String)) (order : List String)
        (probes : String → HttpResult), load_proxies [] rows ≠ [] →
      (init_bridge rows order probes).use_proxy = true →
      ∃ p, (init_bridge rows order probes).current_proxy = some p ∧
        probes p = HttpResult.status 200) ∧
    (∀ (s : BridgeState) (o : List String) (pr : String → HttpResult),
      (switch_proxy s o pr).use_proxy = true →
      ∃ p, (switch_proxy s o pr).current_proxy = some p ∧
        pr p = HttpResult.status 200) ∧
    (∀ (s : BridgeState) (o : List String) (pr : String → HttpResult),
      (find_working_proxy s o pr).1 = none → (switch_proxy s o pr).use_proxy = false) ∧
    (∀ (s : BridgeState) (evs : List PoolEvent), s.use_proxy = false →
      (runEvents s evs).use_proxy = false) := by
  refine ⟨?_, ?_, ?_, fun s evs h => runEvents_use_proxy_false evs s h⟩
  · intro rows order probes hne hup
    have hb : (!(load_proxies [] rows).isEmpty) = true := by simpa using hne
    rcases hf : find_working_proxy
        { use_proxy := true, proxy_list := load_proxies [] rows,
          current_proxy := none, proxies := none, proxy_failures := [],
          last_request_params := none, is_connected := false } order probes
      with ⟨np, d⟩
    cases np with
    | none =>
      exfalso
      simp [init_bridge, hb, hf] at hup
    | some p =>
      refine ⟨p, ?_, find_working_proxy_some _ p order probes (by rw [hf])⟩
      simp [init_bridge, hb, hf]
  · intro s o pr hup
    unfold switch_proxy at hup ⊢
    rcases hf : find_working_proxy s o pr with ⟨np, d⟩
    rw [hf] at hup
    cases np with
    | none => simp at hup
    | some p =>
      refine ⟨p, by simp, ?_⟩
      exact find_working_proxy_some s p o pr (by rw [hf])
  · intro s o pr hnone
    unfold switch_proxy
    rcases hf : find_working_proxy s o pr with ⟨np, d⟩
    rw [hf] at hnone
    cases np with
    | none => simp
    | some p => simp at hnone

/-- Witness for C5 amended: a one-candidate list whose probe succeeds
satisfies the invariant after initialization, and a state with
`use_proxy = false` keeps it false across a successful rotation. -/
theorem C5_proxy_invariant_witness :
    (load_proxies [] [["socks4://9.9.9.9:1080"]] ≠ [] ∧
      (init_bridge [["socks4://9.9.9.9:1080"]] ["socks4://9.9.9.9:1080"]
          (fun _ => HttpResult.status 200)).use_proxy = true ∧
      ∃ p, (init_bridge [["socks4://9.9.9.9:1080"]] ["socks4://9.9.9.9:1080"]
          (fun _ => HttpResult.status 200)).current_proxy = some p ∧
        (fun (_ : String) => HttpResult.status 200) p = HttpResult.status 200) ∧
    (runEvents
        { use_proxy := false, proxy_list := ["socks4://9.9.9.9:1080"],
          current_proxy := none, proxies := none, proxy_failures := [],
          last_request_params := none, is_connected := true }
        [PoolEvent.rotate ["socks4://9.9.9.9:1080"] (fun _ => HttpResult.status 200)]).use_proxy =
      false :=
  ⟨⟨by decide, by decide,
    C5_proxy_invariant.1 [["socks4://9.9.9.9:1080"]] ["socks4://9.9.9.9:1080"]
      (fun _ => HttpResult.status 200) (by decide) (by decide)⟩,
   C5_proxy_invariant.2.2.2
     { use_proxy := false, proxy_list := ["socks4://9.9.9.9:1080"],
       current_proxy := none, proxies := none, proxy_failures := [],
       last_request_params := none, is_connected := true }
     [PoolEvent.rotate ["socks4://9.9.9.9:1080"] (fun _ => HttpResult.status 200)]
     (by decide)⟩

/-! ### Claim C6 -/

/-- C6: for every Tier-1 request the `dist` parameter equals the spec's
`clamp(radiusKm*1000, 10000, 400000)` with default `radiusKm = 250`; in
particular `radiusKm = 1` yields 10000, `radiusKm = 1000` yields 400000,
and an absent `radiusKm` yields 250000. -/
theorem C6_radius_clamp :
    (∀ r : ReqParams, radius_m r = spec_radiusMeters r.radius_km) ∧
    tier1_dist (some ⟨none, some 30, some 50, some 1⟩) = some 10000 ∧
    tier1_dist (some ⟨none, some 30, some 50, some 1000⟩) = some 400000 ∧
    tier1_dist (some ⟨none, some 30, some 50, none⟩) = some 250000 := by
  refine ⟨fun r => ?_, ?_, ?_, ?_⟩
  · unfold radius_m spec_radiusMeters
    congr 1
    rw [max_min_distrib_left]
    norm_num
  · norm_num [tier1_dist, radius_m, min_def, max_def, Rat.floor_def']
  · norm_num [tier1_dist, radius_m, min_def, max_def, Rat.floor_def']
  · norm_num [tier1_dist, radius_m, min_def, max_def, Rat.floor_def']

/-! ### Claim C7 -/

/-- C7 counterexample: with geo parameters cached, the structured payload
`{"command":"update"}`, raw `"update"` and raw `"  Update  "` all trigger
a cycle, but the structured one first replaces the cached request params,
so its cycle ends in a different session state than the raw-text one
(and its fetch skips Tier 1 while the raw cycle attempts it). -/
theorem C7_counterexample :
    (on_message
        { use_proxy := false, proxy_list := [], current_proxy := none,
          proxies := none, proxy_failures := [],
          last_request_params := some ⟨some "update", some 1, some 2, none⟩,
          is_connected := true }
        (some ⟨some "update", none, none, none⟩) ""
        (fun _ =>
          { tier1 := HttpResult.exn, tier2 := HttpResult.status 200,
            decode_exn := false, publish_exn := false, rot_order := [],
            rot_probes := fun _ => HttpResult.exn })).1 = true ∧
    (on_message
        { use_proxy := false, proxy_list := [], current_proxy := none,
          proxies := none, proxy_failures := [],
          last_request_params := some ⟨some "update", some 1, some 2, none⟩,
          is_connected := true }
        none "update"
        (fun _ =>
          { tier1 := HttpResult.exn, tier2 := HttpResult.status 200,
            decode_exn := false, publish_exn := false, rot_order := [],
            rot_probes := fun _ => HttpResult.exn })).1 = true ∧
    (on_message
        { use_proxy := false, proxy_list := [], current_proxy := none,
          proxies := none, proxy_failures := [],
          last_request_params := some ⟨some "update", some 1, some 2, none⟩,
          is_connected := true }
        none "  Update  "
        (fun _ =>
          { tier1 := HttpResult.exn, tier2 := HttpResult.status 200,
            decode_exn := false, publish_exn := false, rot_order := [],
            rot_probes := fun _ => HttpResult.exn })).1 = true ∧
    (on_message
        { use_proxy := false, proxy_list := [], current_proxy := none,
          proxies := none, proxy_failures := [],
          last_request_params := some ⟨some "update", some 1, some 2, none⟩,
          is_connected := true }
        (some ⟨some "update", none, none, none⟩) ""
        (fun _ =>
          { tier1 := HttpResult.exn, tier2 := HttpResult.status 200,
            decode_exn := false, publish_exn := false, rot_order := [],
            rot_probes := fun _ => HttpResult.exn })).2.2.2 ≠
      (on_message
        { use_proxy := false, proxy_list := [], current_proxy := none,
          proxies := none, proxy_failures := [],
          last_request_params := some ⟨some "update", some 1, some 2, none⟩,
          is_connected := true }
        none "update"
        (fun _ =>
          { tier1 := HttpResult.exn, tier2 := HttpResult.status 200,
            decode_exn := false, publish_exn := false, rot_order := [],
            rot_probes := fun _ => HttpResult.exn })).2.2.2 := by
  have hup : (strLower (strStrip "update") == "update") = true := by decide
  have hUp : (strLower (strStrip "  Update  ") == "update") = true := by decide
  refine ⟨by simp [on_message], by simp [on_message, hup], by simp [on_message, hUp], ?_⟩
  intro heq
  have h1 := fetch_and_publish_last_params
    { use_proxy := false, proxy_list := [], current_proxy := none,
      proxies := none, proxy_failures := [],
      last_request_params := some ⟨some "update", none, none, none⟩,
      is_connected := true }
    (fun _ =>
      { tier1 := HttpResult.exn, tier2 := HttpResult.status 200,
        decode_exn := false, publish_exn := false, rot_order := [],
        rot_probes := fun _ => HttpResult.exn })
  have h2 := fetch_and_publish_last_params
    { use_proxy := false, proxy_list := [], current_proxy := none,
      proxies := none, proxy_failures := [],
      last_request_params := some ⟨some "update", some 1, some 2, none⟩,
      is_connected := true }
    (fun _ =>
      { tier1 := HttpResult.exn, tier2 := HttpResult.status 200,
        decode_exn := false, publish_exn := false, rot_order := [],
        rot_probes := fun _ => HttpResult.exn })
  have hL : (on_message
      { use_proxy := false, proxy_list := [], current_proxy := none,
        proxies := none, proxy_failures := [],
        last_request_params := some ⟨some "update", some 1, some 2, none⟩,
        is_connected := true }
      (some ⟨some "update", none, none, none⟩) ""
      (fun _ =>
        { tier1 := HttpResult.exn, tier2 := HttpResult.status 200,
          decode_exn := false, publish_exn := false, rot_order := [],
          rot_probes := fun _ => HttpResult.exn })).2.2.2.last_request_params =
      some ⟨some "update", none, none, none⟩ := by
    simpa [on_message] using h1
  have hR : (on_message
      { use_proxy := false, proxy_list := [], current_proxy := none,
        proxies := none, proxy_failures := [],
        last_request_params := some ⟨some "update", some 1, some 2, none⟩,
        is_connected := true }
      none "update"
      (fun _ =>
        { tier1 := HttpResult.exn, tier2 := HttpResult.status 200,
          decode_exn := false, publish_exn := false, rot_order := [],
          rot_probes := fun _ => HttpResult.exn })).2.2.2.last_request_params =
      some ⟨some "update", some 1, some 2, none⟩ := by
    simpa [on_message, hup] using h2
  rw [heq, hR] at hL
  exact absurd hL (by decide)

/-- C7 amended: the structured `update` payload and both raw-text forms
each trigger a fetch-publish cycle; the two raw-text forms trigger
literally identical cycles; and the structured form's cycle coincides
with the raw-text cycle exactly when the cached request params already
equal the decoded payload (the structured path replaces them first). -/
theorem C7_update_triggers :
    (∀ (s : BridgeState) (envs : Nat → AttemptEnv) (raw : String) (r : ReqParams),
      r.command = some "update" → (on_message s (some r) raw envs).1 = true) ∧
    (∀ (s : BridgeState) (envs : Nat → AttemptEnv),
      on_message s none "update" envs = on_message s none "  Update  " envs) ∧
    (∀ (s : BridgeState) (envs : Nat → AttemptEnv) (raw : String),
      strLower (strStrip raw) = "update" → (on_message s none raw envs).1 = true) ∧
    (∀ (s : BridgeState) (envs : Nat → AttemptEnv) (raw : String) (r : ReqParams),
      r.command = some "update" →
      (on_message s (some r) raw envs = on_message s none "update" envs ↔
        s.last_request_params = some r)) := by
  have hup : (strLower (strStrip "update") == "update") = true := by decide
  have hUp : (strLower (strStrip "  Update  ") == "update") = true := by decide
  refine ⟨?_, ?_, ?_, ?_⟩
  · intro s envs raw r hcmd
    unfold on_message
    simp [hcmd]
  · intro s envs
    unfold on_message
    rw [hup, hUp]
  · intro s envs raw hraw
    unfold on_message
    simp [hraw]
  · intro s envs raw r hcmd
    have hb1 : (r.command == some "update") = true := by simp [hcmd]
    constructor
    · intro heq
      have hproj := congrArg (fun t => t.2.2.2) heq
      have hst : (fetch_and_publish_data
            { s with last_request_params := some r } envs).2.2 =
          (fetch_and_publish_data s envs).2.2 := by
        simpa [on_message, hb1, hup] using hproj
      have h1 := fetch_and_publish_last_params
        { s with last_request_params := some r } envs
      have h2 := fetch_and_publish_last_params s envs
      rw [hst, h2] at h1
      simpa using h1
    · intro hlast
      have hs : { s with last_request_params := some r } = s := by
        cases s
        simp only at hlast
        simp [hlast]
      unfold on_message
      simp only [hb1, hup, if_true, hs]

/-- Witness for C7 amended: when the cached params already equal the
decoded `update` payload, the structured and raw cycles coincide. -/
theorem C7_update_triggers_witness :
    (on_message
        { use_proxy := false, proxy_list := [], current_proxy := none,
          proxies := none, proxy_failures := [],
          last_request_params := some ⟨some "update", none, none, none⟩,
          is_connected := true }
        (some ⟨some "update", none, none, none⟩) ""
        (fun _ =>
          { tier1 := HttpResult.exn, tier2 := HttpResult.status 200,
            decode_exn := false, publish_exn := false, rot_order := [],
            rot_probes := fun _ => HttpResult.exn })).1 = true ∧
    on_message
        { use_proxy := false, proxy_list := [], current_proxy := none,
          proxies := none, proxy_failures := [],
          last_request_params := some ⟨some "update", none, none, none⟩,
          is_connected := true }
        (some ⟨some "update", none, none, none⟩) ""
        (fun _ =>
          { tier1 := HttpResult.exn, tier2 := HttpResult.status 200,
            decode_exn := false, publish_exn := false, rot_order := [],
            rot_probes := fun _ => HttpResult.exn }) =
      on_message
        { use_proxy := false, proxy_list := [], current_proxy := none,
          proxies := none, proxy_failures := [],
          last_request_params := some ⟨some "update", none, none, none⟩,
          is_connected := true }
        none "update"
        (fun _ =>
          { tier1 := HttpResult.exn, tier2 := HttpResult.status 200,
            decode_exn := false, publish_exn := false, rot_order := [],
            rot_probes := fun _ => HttpResult.exn }) :=
  ⟨C7_update_triggers.1 _ _ "" ⟨some "update", none, none, none⟩ rfl,
   (C7_update_triggers.2.2.2 _ _ "" ⟨some "update", none, none, none⟩ rfl).mpr rfl⟩

/-! ### Claim C8 -/

/-- C8 counterexample: loading two rows with the same `socks4://` address
stores it twice; the stored list is NOT deduplicated. -/
theorem C8_counterexample :
    load_proxies [] [["socks4://7.7.7.7:1080"], ["socks4://7.7.7.7:1080"]] =
      ["socks4://7.7.7.7:1080", "socks4://7.7.7.7:1080"] ∧
    ¬ (load_proxies [] [["socks4://7.7.7.7:1080"],
        ["socks4://7.7.7.7:1080"]]).Nodup := by
  decide

/-- C8 amended: `load_proxies` appends exactly the first fields of the
rows whose first field starts with `socks4://`, in row order, keeping
duplicates (no deduplication is performed). -/
theorem C8_load_filter (pl : List String) (rows : List (List String)) :
    load_proxies pl rows =
      pl ++ rows.filterMap (fun row =>
        match row with
        | [] => none
        | f :: _ => if strStartsWith f "socks4://" then some f else none) := by
  induction rows generalizing pl with
  | nil => simp [load_proxies]
  | cons row rest ih =>
    cases row with
    | nil => simp [load_proxies, ih]
    | cons f t =>
      by_cases hb : strStartsWith f "socks4://" = true
      · simp [load_proxies, hb, ih]
      · simp [load_proxies, hb, ih]

/-! ### Claim C10 -/

/-- C10: an attempt whose two-tier fetch succeeded (status 200) but whose
JSON decode or MQTT publish raises is caught as the `except` branch: it
counts as exactly one failed attempt of the retry loop, and, while a
proxy is active, increments that proxy's failure count by one and
rotates. -/
theorem C10_exception_after_fetch (s : BridgeState) (env : AttemptEnv) (p : String)
    (hfetch : tier_response s env = HttpResult.status 200)
    (hexn : env.decode_exn = true ∨ env.publish_exn = true) :
    (attempt_step s env).1 = AttemptOutcome.exnFail ∧
    (∀ (envs : Nat → AttemptEnv) (i retry_count : Nat), retry_count < 3 →
      envs i = env →
      fetch_go envs i retry_count s =
        fetch_go envs (i + 1) (retry_count + 1) (attempt_step s env).2) ∧
    (s.use_proxy = true → s.current_proxy = some p →
      (attempt_step s env).2 =
        switch_proxy { s with proxy_failures := failInc s.proxy_failures p }
          env.rot_order env.rot_probes ∧
      failCount (failInc s.proxy_failures p) p = failCount s.proxy_failures p + 1) := by
  have hor : (env.decode_exn || env.publish_exn) = true := by
    rcases hexn with h | h <;> simp [h]
  have hstep : attempt_step s env = (.exnFail, mark_failed_and_switch s env) := by
    unfold attempt_step
    rw [hfetch]
    simp [hor]
  refine ⟨by rw [hstep], ?_, ?_⟩
  · intro envs i retry h3 henv
    refine fetch_go_fail envs i retry s _ AttemptOutcome.exnFail h3 (by simp) ?_
    rw [henv, hstep]
  · intro hu hc
    refine ⟨?_, failCount_inc_self s.proxy_failures p⟩
    rw [hstep]
    show mark_failed_and_switch s env = _
    unfold mark_failed_and_switch
    rw [hu, hc]

/-- Witness for C10: a direct 200 fetch whose publish call raises, with a
proxy active. -/
theorem C10_exception_after_fetch_witness :
    (attempt_step
        { use_proxy := true, proxy_list := ["socks4://8.8.8.8:1080"],
          current_proxy := some "socks4://8.8.8.8:1080",
          proxies := some "socks4://8.8.8.8:1080", proxy_failures := [],
          last_request_params := none, is_connected := true }
        { tier1 := HttpResult.exn, tier2 := HttpResult.status 200,
          decode_exn := false, publish_exn := true, rot_order := [],
          rot_probes := fun _ => HttpResult.exn }).1 = AttemptOutcome.exnFail ∧
    failCount (failInc [] "socks4://8.8.8.8:1080") "socks4://8.8.8.8:1080" =
      failCount [] "socks4://8.8.8.8:1080" + 1 := by
  have h := C10_exception_after_fetch
    { use_proxy := true, proxy_list := ["socks4://8.8.8.8:1080"],
      current_proxy := some "socks4://8.8.8.8:1080",
      proxies := some "socks4://8.8.8.8:1080", proxy_failures := [],
      last_request_params := none, is_connected := true }
    { tier1 := HttpResult.exn, tier2 := HttpResult.status 200,
      decode_exn := false, publish_exn := true, rot_order := [],
      rot_probes := fun _ => HttpResult.exn }
    "socks4://8.8.8.8:1080" (by decide) (Or.inr (by decide))
  exact ⟨h.1, (h.2.2 (by decide) (by decide)).2⟩
